import Mathlib

/-!
Shallow embedding of the NewsPulse dashboard (src/src/App.jsx) and proofs
about its fetch/pagination, bookmark, and rendering logic.

The browser/network layer is abstracted by a `FetchOutcome` that records how
the single `fetch` call inside each handler resolved; everything after that
point is translated statement-by-statement from the source.
-/

namespace NewsPulse

/-- Article shape as used by the claims: identity is `url`; `title` and
`description` are nullable in the API payload (JS optional chaining), hence
`Option String`. -/
structure Article where
  url : String
  title : Option String
  description : Option String
  deriving DecidableEq, Repr

/-- The component state relevant to the claims: the `useState` hooks of
`App` (articles, loading, error, activeCategory, searchQuery, bookmarks,
page, hasMore, loadingMore). -/
structure AppState where
  articles : List Article
  loading : Bool
  error : Option String
  activeCategory : String
  searchQuery : String
  bookmarks : List Article
  page : Nat
  hasMore : Bool
  loadingMore : Bool
  deriving DecidableEq, Repr

/-- `const API_KEY = import.meta.env.VITE_NEWS_API_KEY || 'demo'` with the
environment variable absent, as in the development default. -/
def API_KEY : String := "demo"

/-- `const BASE_URL = 'https://newsapi.org/v2'` -/
def BASE_URL : String := "https://newsapi.org/v2"

/-- Characters JS `encodeURIComponent` leaves unescaped:
`A-Z a-z 0-9 - _ . ! ~ * ' ( )`. -/
def isUriUnreserved (c : Char) : Bool :=
  (c.isAlphanum && c.toNat < 128) ||
    c == '-' || c == '_' || c == '.' || c == '!' || c == '~' ||
    c == '*' || c == '\'' || c == '(' || c == ')'

/-- Uppercase hexadecimal digit, as produced by `encodeURIComponent`. -/
def hexDigit (n : Nat) : Char :=
  if n < 10 then Char.ofNat (48 + n) else Char.ofNat (55 + n)

/-- Percent-encoding of one character (per UTF-8 byte), as in JS. -/
def encodeChar (c : Char) : String :=
  if isUriUnreserved c then String.singleton c
  else String.join ((String.singleton c).toUTF8.toList.map fun b =>
    "%" ++ String.singleton (hexDigit (b.toNat / 16)) ++
      String.singleton (hexDigit (b.toNat % 16)))

/-- JS `encodeURIComponent`. -/
def encodeURIComponent (s : String) : String :=
  String.join (s.toList.map encodeChar)

/-- The endpoint construction of `fetchNews` (App.jsx lines 59-63); the same
expression is repeated verbatim in `handleLoadMore` (lines 136-140) with
`page + 1` for the page number. JS truthiness of `searchQuery` is
`searchQuery ≠ ""`. -/
def buildEndpoint (searchQuery category : String) (pageNum : Nat) : String :=
  if searchQuery ≠ "" then
    BASE_URL ++ "/everything?q=" ++ encodeURIComponent searchQuery ++
      "&language=en&page=" ++ toString pageNum ++ "&pageSize=12&apiKey=" ++ API_KEY
  else if category = "general" then
    BASE_URL ++ "/top-headlines?country=us&language=en&page=" ++ toString pageNum ++
      "&pageSize=12&apiKey=" ++ API_KEY
  else
    BASE_URL ++ "/everything?q=" ++ category ++ "&language=en&sortBy=publishedAt&page=" ++
      toString pageNum ++ "&pageSize=12&apiKey=" ++ API_KEY

/-- How the one `fetch` inside a handler resolved: a 2xx response whose JSON
body carried `articles` (`data.articles || []` makes a missing field the
empty list), a non-ok HTTP status, or a thrown network/parse error carrying
`err.message`. -/
inductive FetchOutcome where
  | ok (articles : List Article)
  | httpError (status : Nat)
  | networkError (msg : String)
  deriving DecidableEq, Repr

/-- The error string produced by the `catch` block of `fetchNews`: the 429
branch and the generic branch throw fixed messages (lines 72-77), and
`err.message || 'Unable to load news. Please try again later.'` supplies a
fallback for an empty thrown message. -/
def errorMessage : FetchOutcome → Option String
  | .ok _ => none
  | .httpError status =>
      some (if status = 429 then "API rate limit exceeded. Please try again later."
            else "Failed to fetch news")
  | .networkError msg =>
      some (if msg = "" then "Unable to load news. Please try again later." else msg)

/-- The duplicate filter of the append paths (lines 93-95 and 159-161):
keep each new article whose `url` does not already occur in the held list. -/
def dedupAgainst (held newArticles : List Article) : List Article :=
  newArticles.filter fun newArticle =>
    !(held.any fun existingArticle => existingArticle.url == newArticle.url)

/-- `fetchNews(category, pageNum, reset)` (App.jsx lines 53-109) as a state
transition, given how its `fetch` resolved. `if (reset) setLoading(true)` and
`setError(null)` run first; on success the articles are replaced (reset) or
append-deduplicated, then `hasMore`/`page` are updated; on failure the error
is surfaced and, for a reset fetch, the list is cleared; `finally`
`setLoading(false)`. -/
def fetchNews (s : AppState) (_category : String) (pageNum : Nat) (reset : Bool)
    (outcome : FetchOutcome) : AppState :=
  let s1 : AppState :=
    { s with loading := if reset then true else s.loading, error := none }
  match outcome with
  | .ok newArticles =>
      let s2 : AppState :=
        if reset then { s1 with articles := newArticles }
        else { s1 with articles := s1.articles ++ dedupAgainst s1.articles newArticles }
      { s2 with hasMore := decide (12 ≤ newArticles.length),
                page := pageNum,
                loading := false }
  | .httpError status =>
      { s1 with error := errorMessage (.httpError status),
                articles := if reset then [] else s1.articles,
                loading := false }
  | .networkError msg =>
      { s1 with error := errorMessage (.networkError msg),
                articles := if reset then [] else s1.articles,
                loading := false }

/-- `handleLoadMore` (App.jsx lines 130-172): guarded by
`!loading && hasMore && !loadingMore`; on `response.ok` it appends the
deduplicated batch, updates `hasMore` and increments `page`; a non-ok
response does nothing and a thrown error is only logged; `finally`
`setLoadingMore(false)`. -/
def handleLoadMore (s : AppState) (outcome : FetchOutcome) : AppState :=
  if !s.loading && s.hasMore && !s.loadingMore then
    match outcome with
    | .ok newArticles =>
        { s with articles := s.articles ++ dedupAgainst s.articles newArticles,
                 hasMore := decide (12 ≤ newArticles.length),
                 page := s.page + 1,
                 loadingMore := false }
    | .httpError _ => { s with loadingMore := false }
    | .networkError _ => { s with loadingMore := false }
  else s

/-- The synchronous body of the category/search-change effect (App.jsx lines
112-116): `setPage(1); setArticles([]); setHasMore(true)` before the fetch. -/
def resetOnModeChange (s : AppState) : AppState :=
  { s with page := 1, articles := [], hasMore := true }

/-- The whole effect (lines 112-117): reset, then
`fetchNews(activeCategory, 1, true)`. -/
def onModeChange (s : AppState) (outcome : FetchOutcome) : AppState :=
  fetchNews (resetOnModeChange s) s.activeCategory 1 true outcome

/-- The Try Again button handler (App.jsx line 431):
`fetchNews(activeCategory, 1, true)`. -/
def tryAgainClick (s : AppState) (outcome : FetchOutcome) : AppState :=
  fetchNews s s.activeCategory 1 true outcome

/-- `toggleBookmark` (App.jsx lines 180-188): remove every bookmark with the
article's `url` if one is present, else append the article. -/
def toggleBookmark (bookmarks : List Article) (article : Article) : List Article :=
  let articleId := article.url
  if bookmarks.any fun b => b.url == articleId then
    bookmarks.filter fun b => b.url != articleId
  else
    bookmarks ++ [article]

/-- `isBookmarked` (App.jsx lines 191-193). -/
def isBookmarked (bookmarks : List Article) (article : Article) : Bool :=
  bookmarks.any fun b => b.url == article.url

/-- JS `String.prototype.includes`: substring containment. -/
def jsIncludes (hay needle : String) : Bool :=
  decide (List.IsInfix needle.toList hay.toList)

/-- JS `.toLowerCase()` (ASCII range, as `Char.toLower`). -/
def jsToLower (s : String) : String :=
  s.map Char.toLower

/-- The optional chain `field?.toLowerCase().includes(q.toLowerCase())`: an
absent field short-circuits to a falsy value. -/
def optContainsCI (field : Option String) (q : String) : Bool :=
  match field with
  | some t => jsIncludes (jsToLower t) (jsToLower q)
  | none => false

/-- The predicate of `filteredArticles` (App.jsx lines 236-240):
`!searchQuery || title?.toLowerCase().includes(q) || description?...`. -/
def matchesQuery (searchQuery : String) (article : Article) : Bool :=
  searchQuery == "" ||
    optContainsCI article.title searchQuery ||
    optContainsCI article.description searchQuery

/-- `filteredArticles` (App.jsx lines 236-240). -/
def filteredArticles (s : AppState) : List Article :=
  s.articles.filter (matchesQuery s.searchQuery)

/-- The list the articles grid maps over (App.jsx line 445):
`activeCategory === 'bookmarks' ? bookmarks : filteredArticles`. -/
def renderedList (s : AppState) : List Article :=
  if s.activeCategory = "bookmarks" then s.bookmarks else filteredArticles s

/-- The load-more render condition (App.jsx line 510):
`hasMore && !loading && activeCategory !== 'bookmarks'`. -/
def showLoadMore (s : AppState) : Bool :=
  s.hasMore && !s.loading && s.activeCategory != "bookmarks"

/-- No two articles of the list share a `url`. -/
def urlsDistinct (l : List Article) : Prop :=
  (l.map Article.url).Nodup

instance (l : List Article) : Decidable (urlsDistinct l) :=
  inferInstanceAs (Decidable ((l.map Article.url).Nodup))

/-- One user-visible fetch of the session: either an invocation of
`fetchNews` (the reset effect and Try Again use `reset = true`) or a
Load More click. -/
inductive FetchStep where
  | fetch (category : String) (pageNum : Nat) (reset : Bool) (outcome : FetchOutcome)
  | loadMore (outcome : FetchOutcome)
  deriving DecidableEq, Repr

/-- Apply one fetch step to the state. -/
def applyStep (s : AppState) : FetchStep → AppState
  | .fetch category pageNum reset outcome => fetchNews s category pageNum reset outcome
  | .loadMore outcome => handleLoadMore s outcome

/-- Apply a whole sequence of fetches. -/
def runSteps (s : AppState) (steps : List FetchStep) : AppState :=
  steps.foldl applyStep s

/-- The batch delivered by the step, when it succeeded, has pairwise-distinct
urls. -/
def stepBatchDistinct : FetchStep → Prop
  | .fetch _ _ _ (.ok batch) => urlsDistinct batch
  | .loadMore (.ok batch) => urlsDistinct batch
  | _ => True

instance : DecidablePred stepBatchDistinct := fun st =>
  match st with
  | .fetch _ _ _ (.ok batch) => inferInstanceAs (Decidable (urlsDistinct batch))
  | .fetch _ _ _ (.httpError _) => inferInstanceAs (Decidable True)
  | .fetch _ _ _ (.networkError _) => inferInstanceAs (Decidable True)
  | .loadMore (.ok batch) => inferInstanceAs (Decidable (urlsDistinct batch))
  | .loadMore (.httpError _) => inferInstanceAs (Decidable True)
  | .loadMore (.networkError _) => inferInstanceAs (Decidable True)

/-! ### Concrete fixtures used by counterexamples and witnesses -/

/-- A concrete article. -/
def artA : Article :=
  { url := "https://x/a", title := some "Alpha hardware review"
    description := some "a long look at new tech" }

/-- A concrete article with a url distinct from `artA`. -/
def artB : Article :=
  { url := "https://x/b", title := some "Beta markets"
    description := some "stocks and bonds" }

/-- A third concrete article. -/
def artC : Article :=
  { url := "https://x/c", title := none
    description := some "science briefing" }

/-- A numbered throwaway article. -/
def mkArt (i : Nat) : Article :=
  { url := "https://x/n/" ++ toString i, title := none, description := none }

/-- A batch of 13 pairwise-distinct articles. -/
def batch13 : List Article := (List.range 13).map mkArt

/-- A quiescent state: nothing held, not loading, no error, ready for a
Load More click. -/
def testState : AppState :=
  { articles := [], loading := false, error := none, activeCategory := "general"
    searchQuery := "", bookmarks := [], page := 1, hasMore := true
    loadingMore := false }

/-- A state viewing the bookmarks pseudo-category, with a fetched list and a
bookmark list that disagree. -/
def bookmarksState : AppState :=
  { articles := [artA, artB], loading := false, error := none
    activeCategory := "bookmarks", searchQuery := "tech", bookmarks := [artC]
    page := 3, hasMore := true, loadingMore := false }

/-- A state with a non-empty search query over a held list. -/
def searchState : AppState :=
  { articles := [artA, artB], loading := false, error := none
    activeCategory := "general", searchQuery := "Tech", bookmarks := []
    page := 1, hasMore := true, loadingMore := false }

/-! ### Theorems -/

/-- C4: changing the active category or the search text resets the cursor to
page 1 with `hasMore` true and clears the displayed list to empty before any
article of the new batch is applied; the effect then runs `fetchNews` on the
reset state in replace mode (`reset = true`, page 1), and a successful batch
replaces the (empty) list outright. -/
theorem mode_change_resets_then_replaces (s : AppState) :
    (resetOnModeChange s).page = 1 ∧
    (resetOnModeChange s).articles = [] ∧
    (resetOnModeChange s).hasMore = true ∧
    (∀ outcome, onModeChange s outcome =
      fetchNews (resetOnModeChange s) s.activeCategory 1 true outcome) ∧
    (∀ batch, (onModeChange s (.ok batch)).articles = batch) :=
  ⟨rfl, rfl, rfl, fun _ => rfl, fun _ => rfl⟩

/-- C5: a reset fetch (initial load, category/search change, or Try Again)
that ends in a non-ok HTTP response or a thrown network error sets a
user-facing error message and clears the article list; nothing else of the
state changes and no further fetch is encoded in the transition — the only
refetch path is the Try Again click, which runs `fetchNews` in reset mode. -/
theorem reset_fetch_failure_surfaces_error (s : AppState) (category : String) (pageNum : Nat) :
    (∀ status, fetchNews s category pageNum true (.httpError status) =
        { s with error := errorMessage (.httpError status), articles := [], loading := false } ∧
      (errorMessage (.httpError status)).isSome = true) ∧
    (∀ msg, fetchNews s category pageNum true (.networkError msg) =
        { s with error := errorMessage (.networkError msg), articles := [], loading := false } ∧
      (errorMessage (.networkError msg)).isSome = true) ∧
    (∀ outcome, tryAgainClick s outcome = fetchNews s s.activeCategory 1 true outcome) :=
  ⟨fun _ => ⟨rfl, rfl⟩, fun _ => ⟨rfl, rfl⟩, fun _ => rfl⟩

/-- C6: a Load More fetch that fails (non-ok HTTP response or thrown error)
leaves the whole state unchanged — articles, page, hasMore and the error
field included. -/
theorem load_more_failure_keeps_state (s : AppState)
    (h1 : s.loading = false) (h2 : s.hasMore = true) (h3 : s.loadingMore = false) :
    (∀ status, handleLoadMore s (.httpError status) = s) ∧
    (∀ msg, handleLoadMore s (.networkError msg) = s) := by
  cases s with
  | mk articles loading error activeCategory searchQuery bookmarks page hasMore loadingMore =>
    simp only at h1 h2 h3
    subst h1; subst h2; subst h3
    exact ⟨fun _ => rfl, fun _ => rfl⟩

/-- Witness for C6 at a concrete state and a concrete failing response. -/
theorem load_more_failure_keeps_state_witness :
    handleLoadMore testState (.httpError 500) = testState :=
  (load_more_failure_keeps_state testState rfl rfl rfl).1 500

/-- C8: with the bookmarks pseudo-category active, the grid maps over exactly
the stored bookmark list (ignoring the fetched list and the search filter)
and the Load More affordance is never rendered, whatever `hasMore` and the
fetched list are. -/
theorem bookmarks_category_shows_bookmarks (s : AppState)
    (h : s.activeCategory = "bookmarks") :
    renderedList s = s.bookmarks ∧ showLoadMore s = false := by
  refine ⟨by simp [renderedList, h], ?_⟩
  simp [showLoadMore, h]

/-- Witness for C8: a state whose fetched list, search text and bookmark list
all disagree, with `hasMore = true`. -/
theorem bookmarks_category_shows_bookmarks_witness :
    renderedList bookmarksState = bookmarksState.bookmarks ∧
      showLoadMore bookmarksState = false :=
  bookmarks_category_shows_bookmarks bookmarksState rfl

/-- C2 counterexample: a successful reset fetch delivering 13 articles sets
`hasMore = true` although the batch size does not equal the page size 12 —
the "true iff the batch size equals the requested page size" reading is
false on the code. -/
theorem hasMore_not_iff_eq_pageSize :
    (fetchNews testState "general" 1 true (.ok batch13)).hasMore = true ∧
      ¬ batch13.length = 12 := by
  constructor
  · rfl
  · decide

/-- C2 amended: after every successful fetch, `hasMore` is true iff the
received batch holds at least 12 articles (the code compares `>= 12`);
equivalently it is false exactly when the batch has fewer than 12. This
holds for `fetchNews` and for a Load More click that passes its guard. -/
theorem hasMore_iff_ge_pageSize (s : AppState) (category : String) (pageNum : Nat)
    (reset : Bool) (batch : List Article) :
    ((fetchNews s category pageNum reset (.ok batch)).hasMore = true ↔ 12 ≤ batch.length) ∧
    (s.loading = false → s.hasMore = true → s.loadingMore = false →
      ((handleLoadMore s (.ok batch)).hasMore = true ↔ 12 ≤ batch.length)) := by
  constructor
  · simp [fetchNews]
  · intro h1 h2 h3
    simp [handleLoadMore, h1, h2, h3]

/-- Witness for C2 at a concrete quiescent state and the 13-article batch. -/
theorem hasMore_iff_ge_pageSize_witness :
    (handleLoadMore testState (.ok batch13)).hasMore = true ↔ 12 ≤ batch13.length :=
  (hasMore_iff_ge_pageSize testState "general" 1 true batch13).2 rfl rfl rfl

/-- C3 counterexample: for the non-general category `technology` with an
empty search query, the request URL is built on the `/everything` endpoint
with the category as the free-text `q` parameter, not on `/top-headlines`
with a `category` parameter as the claim states. -/
theorem category_endpoint_not_top_headlines :
    buildEndpoint "" "technology" 1 =
      "https://newsapi.org/v2/everything?q=technology&language=en&sortBy=publishedAt&page=1&pageSize=12&apiKey=demo" ∧
    buildEndpoint "" "technology" 1 ≠
      "https://newsapi.org/v2/top-headlines?country=us&category=technology&page=1&pageSize=12&apiKey=demo" := by
  constructor
  · rfl
  · decide

/-- C3 amended: with an empty search query, every non-general category is
requested through the `/everything` endpoint with the category id as the
free-text `q` parameter (sorted by publication date); the `/top-headlines`
endpoint is used only for the `general` category, and then without a
`category` parameter. -/
theorem category_endpoint_uses_everything (category : String) (pageNum : Nat)
    (h : category ≠ "general") :
    buildEndpoint "" category pageNum =
      BASE_URL ++ "/everything?q=" ++ category ++ "&language=en&sortBy=publishedAt&page=" ++
        toString pageNum ++ "&pageSize=12&apiKey=" ++ API_KEY ∧
    buildEndpoint "" "general" pageNum =
      BASE_URL ++ "/top-headlines?country=us&language=en&page=" ++ toString pageNum ++
        "&pageSize=12&apiKey=" ++ API_KEY := by
  constructor
  · simp [buildEndpoint, h]
  · simp [buildEndpoint]

/-- Witness for C3 at category `technology`, page 1. -/
theorem category_endpoint_uses_everything_witness :
    buildEndpoint "" "technology" 1 =
      BASE_URL ++ "/everything?q=" ++ "technology" ++ "&language=en&sortBy=publishedAt&page=" ++
        toString 1 ++ "&pageSize=12&apiKey=" ++ API_KEY ∧
    buildEndpoint "" "general" 1 =
      BASE_URL ++ "/top-headlines?country=us&language=en&page=" ++ toString 1 ++
        "&pageSize=12&apiKey=" ++ API_KEY :=
  category_endpoint_uses_everything "technology" 1 (by decide)

/-- C10: with a non-empty search query and a non-bookmarks category, the
grid shows exactly those held articles whose title or description contains
the query case-insensitively — a second, client-side filter on top of the
server-side search. -/
theorem search_filters_rendered_list (s : AppState) (a : Article)
    (hq : s.searchQuery ≠ "") (hc : s.activeCategory ≠ "bookmarks") :
    a ∈ renderedList s ↔
      a ∈ s.articles ∧
        (optContainsCI a.title s.searchQuery = true ∨
          optContainsCI a.description s.searchQuery = true) := by
  simp [renderedList, hc, filteredArticles, List.mem_filter, matchesQuery, hq]

/-- Witness for C10: `artA` (description mentioning tech) is rendered under
the query `"Tech"` in `searchState`. -/
theorem search_filters_rendered_list_witness :
    artA ∈ renderedList searchState ↔
      artA ∈ searchState.articles ∧
        (optContainsCI artA.title searchState.searchQuery = true ∨
          optContainsCI artA.description searchState.searchQuery = true) :=
  search_filters_rendered_list searchState artA (by decide) (by decide)

/-! ### List lemmas shared by the bookmark and dedup proofs -/

/-- Removing every article with url `x` does not change whether some other
url `u` occurs. -/
theorem url_filter_ne_any (l : List Article) (x u : String) (h : u ≠ x) :
    ((l.filter fun b => b.url != x).any fun b => b.url == u) =
      (l.any fun b => b.url == u) := by
  have hpt : ∀ b : Article, ((b.url != x) && (b.url == u)) = (b.url == u) := by
    intro b
    by_cases hb : b.url = u
    · simp [hb, h]
    · simp [hb]
  simp only [List.any_filter, hpt]

/-- After removing every article with url `x`, no article with url `x`
remains. -/
theorem url_filter_any_self (l : List Article) (x : String) :
    ((l.filter fun b => b.url != x).any fun b => b.url == x) = false := by
  have hpt : ∀ b : Article, ((b.url != x) && (b.url == x)) = false := by
    intro b
    by_cases hb : b.url = x <;> simp [hb]
  simp [List.any_filter, hpt]

/-- If no article of the list has url `x`, filtering that url away is the
identity. -/
theorem url_filter_eq_self (l : List Article) (x : String)
    (h : (l.any fun b => b.url == x) = false) :
    (l.filter fun b => b.url != x) = l := by
  rw [List.filter_eq_self]
  intro b hb
  have := (List.any_eq_false.mp h) b hb
  simpa using this

/-- A toggle on a list already holding the article's url removes every entry
with that url. -/
theorem toggle_of_present (bm : List Article) (a : Article)
    (h : (bm.any fun b => b.url == a.url) = true) :
    toggleBookmark bm a = bm.filter fun b => b.url != a.url := by
  unfold toggleBookmark
  rw [if_pos h]

/-- A toggle on a list holding no entry with the article's url appends the
article. -/
theorem toggle_of_absent (bm : List Article) (a : Article)
    (h : (bm.any fun b => b.url == a.url) = false) :
    toggleBookmark bm a = bm ++ [a] := by
  unfold toggleBookmark
  rw [if_neg (by rw [h]; exact Bool.false_ne_true)]

/-- C7: toggling the same article twice returns the bookmark list to its
original membership state — every probe article is reported bookmarked after
the double toggle exactly when it was before. -/
theorem bookmark_toggle_twice_membership (bm : List Article) (a probe : Article) :
    isBookmarked (toggleBookmark (toggleBookmark bm a) a) probe =
      isBookmarked bm probe := by
  by_cases h : (bm.any fun b => b.url == a.url) = true
  · rw [toggle_of_present bm a h,
        toggle_of_absent _ a (url_filter_any_self bm a.url)]
    unfold isBookmarked
    simp only [List.any_append, List.any_cons, List.any_nil, Bool.or_false]
    by_cases hp : probe.url = a.url
    · have ha : (a.url == probe.url) = true := by simp [hp]
      rw [ha, Bool.or_true]
      have hb : (bm.any fun b => b.url == probe.url) = true := by
        rw [hp]; exact h
      exact hb.symm
    · have hne : (a.url == probe.url) = false :=
        beq_eq_false_iff_ne.mpr fun hh => hp hh.symm
      rw [hne, Bool.or_false]
      exact url_filter_ne_any bm a.url probe.url hp
  · have hfalse : (bm.any fun b => b.url == a.url) = false := by
      simpa using h
    rw [toggle_of_absent bm a hfalse]
    have hcond : ((bm ++ [a]).any fun b => b.url == a.url) = true := by
      rw [List.any_append]
      simp
    rw [toggle_of_present _ a hcond,
        List.filter_append, url_filter_eq_self bm a.url hfalse]
    simp [isBookmarked]

/-- C9: a toggle keeps the bookmark urls pairwise distinct — removal keeps a
sublist, and addition only happens when the url is absent. -/
theorem toggleBookmark_urls_distinct (bm : List Article) (a : Article)
    (h : urlsDistinct bm) : urlsDistinct (toggleBookmark bm a) := by
  unfold urlsDistinct toggleBookmark
  by_cases hmem : (bm.any fun b => b.url == a.url) = true
  · rw [if_pos hmem]
    exact List.Nodup.sublist ((List.filter_sublist bm).map Article.url) h
  · have hfalse : (bm.any fun b => b.url == a.url) = false := by simpa using hmem
    rw [if_neg (by simp [hfalse])]
    rw [List.map_append, List.nodup_append]
    refine ⟨h, by simp, ?_⟩
    intro u hu hu'
    rcases List.mem_map.mp hu with ⟨e, he, rfl⟩
    have hune : e.url ≠ a.url := by
      have := (List.any_eq_false.mp hfalse) e he
      simpa using this
    simp only [List.map_cons, List.map_nil, List.mem_singleton] at hu'
    exact hune hu'

/-- Witness for C9: toggling a fresh article onto a two-article bookmark list
with distinct urls keeps urls distinct. -/
theorem toggleBookmark_urls_distinct_witness :
    urlsDistinct (toggleBookmark [artA, artB] artC) :=
  toggleBookmark_urls_distinct [artA, artB] artC (by decide)

/-- Appending a batch deduplicated against the held list keeps urls pairwise
distinct, provided both the held list and the batch have distinct urls. -/
theorem dedup_append_distinct (held batch : List Article)
    (h1 : urlsDistinct held) (h2 : urlsDistinct batch) :
    urlsDistinct (held ++ dedupAgainst held batch) := by
  unfold urlsDistinct dedupAgainst at *
  rw [List.map_append, List.nodup_append]
  refine ⟨h1, List.Nodup.sublist ((List.filter_sublist batch).map Article.url) h2, ?_⟩
  intro u hu hu'
  rcases List.mem_map.mp hu' with ⟨b, hb, rfl⟩
  rcases List.mem_filter.mp hb with ⟨_, hpred⟩
  rcases List.mem_map.mp hu with ⟨e, he, heq⟩
  rw [Bool.not_eq_true'] at hpred
  have hne := (List.any_eq_false.mp hpred) e he
  simp only [beq_iff_eq] at hne
  exact hne heq

/-- One fetch step keeps the held urls pairwise distinct when the delivered
batch has pairwise-distinct urls. -/
theorem applyStep_urls_distinct (s : AppState) (st : FetchStep)
    (h : urlsDistinct s.articles) (hst : stepBatchDistinct st) :
    urlsDistinct ((applyStep s st).articles) := by
  cases st with
  | fetch category pageNum reset outcome =>
    cases outcome with
    | ok batch =>
      cases reset with
      | true =>
        have e : (applyStep s (.fetch category pageNum true (.ok batch))).articles
            = batch := rfl
        rw [e]; exact hst
      | false =>
        have e : (applyStep s (.fetch category pageNum false (.ok batch))).articles
            = s.articles ++ dedupAgainst s.articles batch := rfl
        rw [e]; exact dedup_append_distinct s.articles batch h hst
    | httpError status =>
      cases reset with
      | true =>
        have e : (applyStep s (.fetch category pageNum true (.httpError status))).articles
            = [] := rfl
        rw [e]; exact List.nodup_nil
      | false =>
        have e : (applyStep s (.fetch category pageNum false (.httpError status))).articles
            = s.articles := rfl
        rw [e]; exact h
    | networkError msg =>
      cases reset with
      | true =>
        have e : (applyStep s (.fetch category pageNum true (.networkError msg))).articles
            = [] := rfl
        rw [e]; exact List.nodup_nil
      | false =>
        have e : (applyStep s (.fetch category pageNum false (.networkError msg))).articles
            = s.articles := rfl
        rw [e]; exact h
  | loadMore outcome =>
    by_cases hg : (!s.loading && s.hasMore && !s.loadingMore) = true
    · cases outcome with
      | ok batch =>
        have e : (applyStep s (.loadMore (.ok batch))).articles
            = s.articles ++ dedupAgainst s.articles batch := by
          simp only [applyStep]
          unfold handleLoadMore
          rw [if_pos hg]
        rw [e]; exact dedup_append_distinct s.articles batch h hst
      | httpError status =>
        have e : (applyStep s (.loadMore (.httpError status))).articles = s.articles := by
          simp only [applyStep]
          unfold handleLoadMore
          rw [if_pos hg]
        rw [e]; exact h
      | networkError msg =>
        have e : (applyStep s (.loadMore (.networkError msg))).articles = s.articles := by
          simp only [applyStep]
          unfold handleLoadMore
          rw [if_pos hg]
        rw [e]; exact h
    · have e : applyStep s (.loadMore outcome) = s := by
        simp only [applyStep]
        unfold handleLoadMore
        rw [if_neg hg]
      rw [e]; exact h

/-- C1 amended: over every sequence of fetches — resets, appends and Load
More clicks in any order — the held article list keeps pairwise-distinct
urls, provided the starting list does and every successfully received batch
itself has pairwise-distinct urls. -/
theorem run_fetch_sequence_urls_distinct (steps : List FetchStep) (s : AppState)
    (h0 : urlsDistinct s.articles) (hb : ∀ st ∈ steps, stepBatchDistinct st) :
    urlsDistinct ((runSteps s steps).articles) := by
  induction steps generalizing s with
  | nil => exact h0
  | cons st rest ih =>
    exact ih (applyStep s st)
      (applyStep_urls_distinct s st h0 (hb st (List.mem_cons_self st rest)))
      (fun st' hst' => hb st' (List.mem_cons_of_mem st hst'))

/-- C1 counterexample: an append fetch whose batch repeats one article leaves
a duplicated url in the held list — the dedup filter checks the new articles
only against the held list, not against each other. -/
theorem append_fetch_can_duplicate :
    ¬ urlsDistinct ((handleLoadMore testState (.ok [artA, artA])).articles) := by
  decide

/-- Witness for C1: a reset fetch followed by a Load More whose batch
overlaps the held list, all batches internally duplicate-free. -/
theorem run_fetch_sequence_urls_distinct_witness :
    urlsDistinct ((runSteps testState
      [.fetch "general" 1 true (.ok [artA, artB]),
       .loadMore (.ok [artB, artC])]).articles) :=
  run_fetch_sequence_urls_distinct
    [.fetch "general" 1 true (.ok [artA, artB]), .loadMore (.ok [artB, artC])]
    testState (by decide) (by decide)

end NewsPulse
